import Mathlib

/-!
Verification development for the RiftRewind performance-analytics core.

The definitions below are a shallow embedding of the Python sources:

* `src/ml_training/train_models.py` — ground-truth score calculator
  (`PerformanceScoreCalculator.calculate_performance_score`);
* `src/ml_training/data_collection.py` — training-time feature extraction
  (`RiotDataCollector.extract_participant_data`);
* `src/ml_training/performance_predictor.py` — inference-time extraction and
  prediction (`PerformancePredictor.extract_features`, `predict_performance`,
  `_score_to_grade`, `_score_to_percentile`, `predict_batch`);
* `src/ml-lambda2.py` — the insight-pipeline lambda (`extract_features`,
  `run_comprehensive_ml_analysis`, `run_logistic_regression_analysis`,
  `should_recompute_ml`).

Python floats are modelled by `ℚ` (exact field arithmetic, the standard
idealisation of IEEE arithmetic); machine integers from the match records by
`ℕ`.  Python dictionary access `d[k]` on a possibly missing key is modelled by
an `Option` field that must be present (`Except` failure = `KeyError`), and
`d.get(k, default)` by `Option.getD`.
-/

/-- `np.clip(x, lo, hi)`: `lo` if `x < lo`, `hi` if `x > hi`, else `x`. -/
def clipQ (x lo hi : ℚ) : ℚ := max lo (min x hi)

/-- `np.mean` of a list of rationals. -/
def meanQ (l : List ℚ) : ℚ := l.sum / l.length

/-- Round a rational to the nearest integer, ties to even
(the semantics of Python `round`). -/
def roundHalfEven (x : ℚ) : ℤ :=
  if x - Int.floor x < 1/2 then Int.floor x
  else if 1/2 < x - Int.floor x then Int.floor x + 1
  else if Int.floor x % 2 = 0 then Int.floor x
  else Int.floor x + 1

/-- Python `round(x, 2)`. -/
def round2 (x : ℚ) : ℚ := (roundHalfEven (x * 100) : ℚ) / 100

/-- Python `round(x, 1)`. -/
def round1 (x : ℚ) : ℚ := (roundHalfEven (x * 10) : ℚ) / 10

/-! ## The kill/death/assist ratio of the three feature-extraction paths

Each definition transcribes the `kda` expression of one source line. -/

/-- `src/ml_training/data_collection.py` line 145, inside
`RiotDataCollector.extract_participant_data`:
`participant['kills'] + participant['assists'] / max(participant['deaths'], 1)`
(the source has no parentheses around the sum, so only `assists` is divided). -/
def dataCollection_kda (kills deaths assists : ℕ) : ℚ :=
  (kills : ℚ) + (assists : ℚ) / ((max deaths 1 : ℕ) : ℚ)

/-- `src/ml_training/performance_predictor.py` line 113, inside
`PerformancePredictor.extract_features`:
`(participant['kills'] + participant['assists']) / max(participant['deaths'], 1)`. -/
def predictor_kda (kills deaths assists : ℕ) : ℚ :=
  ((kills : ℚ) + (assists : ℚ)) / ((max deaths 1 : ℕ) : ℚ)

/-- `src/ml-lambda2.py` line 126, inside `extract_features`:
`(participant['kills'] + participant['assists']) / max(participant['deaths'], 1)`. -/
def lambda2_kda (kills deaths assists : ℕ) : ℚ :=
  ((kills : ℚ) + (assists : ℚ)) / ((max deaths 1 : ℕ) : ℚ)

/-! ## Ground-truth score calculator (`train_models.py`) -/

/-- A training sample, restricted to the fields
`PerformanceScoreCalculator.calculate_performance_score` reads.  The seven
weighted statistics are `Option` because the code guards each with
`stat in sample`; the impact counts are `Option ℕ` because the code reads them
with `sample.get(name, 0)`. -/
structure TSample where
  win : Bool
  kda : Option ℚ := none
  cs_per_min : Option ℚ := none
  damage_per_min : Option ℚ := none
  vision_per_min : Option ℚ := none
  kill_participation : Option ℚ := none
  damage_share : Option ℚ := none
  time_dead_pct : Option ℚ := none
  turrets : Option ℕ := none
  dragons : Option ℕ := none
  barons : Option ℕ := none
  solo_kills : Option ℕ := none
  multikills : Option ℕ := none
deriving DecidableEq

/-- Per-role statistics (`mean`, `std`) for the seven weighted statistics, as
assembled by `PerformanceScoreCalculator._calculate_role_statistics`.  Each is
`Option` because the code guards each with `stat in role_stats`. -/
structure RoleStats where
  kda : Option (ℚ × ℚ) := none
  cs_per_min : Option (ℚ × ℚ) := none
  damage_per_min : Option (ℚ × ℚ) := none
  vision_per_min : Option (ℚ × ℚ) := none
  kill_participation : Option (ℚ × ℚ) := none
  damage_share : Option (ℚ × ℚ) := none
  time_dead_pct : Option (ℚ × ℚ) := none
deriving DecidableEq

/-- The `key_stats` dictionary of `calculate_performance_score` (stat, weight),
in source order, paired with the role statistics and the sample value. -/
def statEntries (rs : RoleStats) (s : TSample) : List (Option (ℚ × ℚ) × Option ℚ × ℚ) :=
  [(rs.kda, s.kda, 2),
   (rs.cs_per_min, s.cs_per_min, 3/2),
   (rs.damage_per_min, s.damage_per_min, 2),
   (rs.vision_per_min, s.vision_per_min, 1),
   (rs.kill_participation, s.kill_participation, 3/2),
   (rs.damage_share, s.damage_share, 3/2),
   (rs.time_dead_pct, s.time_dead_pct, -2)]

/-- The `stat_scores` list of `calculate_performance_score`: for each weighted
stat present both in `role_stats` and in the sample,
`np.clip(5 + z_score, 0, 10) * abs(weight)` with `z_score = (value - mean) / std`. -/
def statScores (rs : RoleStats) (s : TSample) : List ℚ :=
  (statEntries rs s).filterMap (fun e =>
    match e.1, e.2.1 with
    | some ms, some v => some (clipQ (5 + (v - ms.1) / ms.2) 0 10 * |e.2.2|)
    | _, _ => none)

/-- Component 2 of `calculate_performance_score` (train_models.py lines 108-134):
`stat_score = np.mean(stat_scores) if stat_scores else 25` followed by
`stat_score = np.clip(stat_score * (50 / 10), 0, 50)`. -/
def stat_component (rs : RoleStats) (s : TSample) : ℚ :=
  let stat_score := if statScores rs s = [] then 25 else meanQ (statScores rs s)
  clipQ (stat_score * (50 / 10)) 0 50

/-- Component 3 of `calculate_performance_score` (train_models.py lines 136-150):
objective bonuses capped at 5 each, combat bonuses, total capped at 20. -/
def impact_component (s : TSample) : ℚ :=
  min (min ((s.turrets.getD 0 : ℚ) * 2) 5
    + min ((s.dragons.getD 0 : ℚ) * 2) 5
    + min ((s.barons.getD 0 : ℚ) * 5) 5
    + (if 2 ≤ s.solo_kills.getD 0 then 3 else 0)
    + (if 1 ≤ s.multikills.getD 0 then 2 else 0)) 20

/-- Component 1 of `calculate_performance_score`: `25 if sample['win'] else 5`. -/
def win_component (s : TSample) : ℚ := if s.win then 25 else 5

/-- `PerformanceScoreCalculator.calculate_performance_score`
(train_models.py lines 95-156): sum of the three components, clipped to [0,100]. -/
def calculate_performance_score (rs : RoleStats) (s : TSample) : ℚ :=
  clipQ (win_component s + stat_component rs s + impact_component s) 0 100

/-! ## Recompute decision engine (`ml-lambda2.py`, `should_recompute_ml`) -/

/-- `should_recompute_ml(raw_data, existing_ml)` (ml-lambda2.py lines 354-369).
`new_ids` are the match ids of the incoming raw data; `existing` is the cached
ML record reduced to its `processed_match_ids` list (`None`/falsy cache =
`none`).  Returns the pair `(recompute, reason)`. -/
def should_recompute_ml (new_ids : List String) (existing : Option (List String)) :
    Bool × String :=
  match existing with
  | none => (true, "No existing results")
  | some old_ids =>
    if (∀ a ∈ new_ids, a ∈ old_ids) ∧ (∀ a ∈ old_ids, a ∈ new_ids) then
      (false, "No new matches")
    else
      let new_count := (new_ids.dedup.filter (fun a => decide (a ∉ old_ids))).length
      if 3 ≤ new_count then (true, toString new_count ++ " new matches")
      else (false, "Only " ++ toString new_count ++ " new matches - using cache")

/-! ## Predictor (`performance_predictor.py`) -/

/-- The `challenges` sub-dictionary of a participant.  Every access in the
sources is `challenges.get(name, 0)`, so a plain field with value 0 models an
absent key. -/
structure Challenges where
  teamDamagePercentage : ℚ := 0
  controlWardsPlaced : ℚ := 0
  turretPlatesTaken : ℚ := 0
  laneMinionsFirst10Minutes : ℚ := 0
  jungleCsBefore10Minutes : ℚ := 0
  maxCsAdvantageOnLaneOpponent : ℚ := 0
  earlyLaningPhaseGoldExpAdvantage : ℚ := 0
  killParticipation : ℚ := 0
  soloKills : ℚ := 0
  skillshotsHit : ℚ := 0
  skillshotsDodged : ℚ := 0
deriving DecidableEq

/-- A raw participant record.  Fields the predictor reads with `participant[k]`
(KeyError when missing) are `Option`; fields it reads with
`participant.get(k, default)` are plain with the default standing for absence. -/
structure Participant where
  puuid : Option String := none
  individualPosition : Option String := none
  championName : Option String := none
  win : Option Bool := none
  kills : Option ℕ := none
  deaths : Option ℕ := none
  assists : Option ℕ := none
  totalMinionsKilled : Option ℕ := none
  goldEarned : Option ℕ := none
  totalDamageDealtToChampions : Option ℕ := none
  totalDamageTaken : Option ℕ := none
  damageSelfMitigated : Option ℕ := none
  visionScore : Option ℕ := none
  wardsPlaced : Option ℕ := none
  wardsKilled : Option ℕ := none
  doubleKills : Option ℕ := none
  tripleKills : Option ℕ := none
  quadraKills : Option ℕ := none
  pentaKills : Option ℕ := none
  timeCCingOthers : Option ℕ := none
  totalHeal : Option ℕ := none
  totalDamageShieldedOnTeammates : Option ℕ := none
  totalTimeSpentDead : Option ℕ := none
  longestTimeSpentLiving : Option ℕ := none
  neutralMinionsKilled : ℕ := 0
  turretKills : ℕ := 0
  dragonKills : ℕ := 0
  baronKills : ℕ := 0
  firstBloodKill : Bool := false
  firstTowerKill : Bool := false
  challenges : Option Challenges := none
deriving DecidableEq

/-- Match context: `match_info['gameDuration']`, in seconds. -/
structure MatchInfo where
  gameDuration : ℚ
deriving DecidableEq

/-- The feature dictionary built by `PerformancePredictor.extract_features`
(performance_predictor.py lines 94-171), field per key, in source order. -/
structure FeatureVec where
  kills : ℚ
  deaths : ℚ
  assists : ℚ
  kda : ℚ
  cs_per_min : ℚ
  jungle_cs : ℚ
  gold_per_min : ℚ
  damage_per_min : ℚ
  damage_taken_per_min : ℚ
  damage_mitigated : ℚ
  damage_share : ℚ
  vision_per_min : ℚ
  wards_placed : ℚ
  wards_killed : ℚ
  control_wards : ℚ
  turret_plates : ℚ
  turrets : ℚ
  dragons : ℚ
  barons : ℚ
  cs_at_10 : ℚ
  cs_advantage : ℚ
  gold_advantage : ℚ
  kill_participation : ℚ
  solo_kills : ℚ
  multikills : ℚ
  cc_time : ℚ
  healing : ℚ
  shielding : ℚ
  time_dead_pct : ℚ
  longest_living : ℚ
  skillshots_hit : ℚ
  skillshots_dodged : ℚ
  first_blood : ℚ
  first_tower : ℚ
  game_duration : ℚ
deriving DecidableEq

/-- `participant[k]`: value when the key is present, `KeyError` otherwise. -/
def req {α : Type} (o : Option α) : Except Unit α :=
  match o with
  | some a => .ok a
  | none => .error ()

/-- `PerformancePredictor.extract_features(participant, match_info)`
(performance_predictor.py lines 94-171).  A missing required key raises
(`Except.error`), matching the Python `KeyError`; `challenges` and the other
`.get` fields default. -/
def extract_features (p : Participant) (mi : MatchInfo) : Except Unit FeatureVec := do
  let duration_mins := mi.gameDuration / 60
  let ch := p.challenges.getD {}
  let kills ← req p.kills
  let deaths ← req p.deaths
  let assists ← req p.assists
  let cs ← req p.totalMinionsKilled
  let gold ← req p.goldEarned
  let dmg ← req p.totalDamageDealtToChampions
  let dmgTaken ← req p.totalDamageTaken
  let dmgMit ← req p.damageSelfMitigated
  let vision ← req p.visionScore
  let wPlaced ← req p.wardsPlaced
  let wKilled ← req p.wardsKilled
  let dKills ← req p.doubleKills
  let tKills ← req p.tripleKills
  let qKills ← req p.quadraKills
  let pKills ← req p.pentaKills
  let cc ← req p.timeCCingOthers
  let heal ← req p.totalHeal
  let shield ← req p.totalDamageShieldedOnTeammates
  let dead ← req p.totalTimeSpentDead
  let living ← req p.longestTimeSpentLiving
  pure {
    kills := kills
    deaths := deaths
    assists := assists
    kda := ((kills : ℚ) + (assists : ℚ)) / ((max deaths 1 : ℕ) : ℚ)
    cs_per_min := (cs : ℚ) / duration_mins
    jungle_cs := p.neutralMinionsKilled
    gold_per_min := (gold : ℚ) / duration_mins
    damage_per_min := (dmg : ℚ) / duration_mins
    damage_taken_per_min := (dmgTaken : ℚ) / duration_mins
    damage_mitigated := dmgMit
    damage_share := ch.teamDamagePercentage
    vision_per_min := (vision : ℚ) / duration_mins
    wards_placed := wPlaced
    wards_killed := wKilled
    control_wards := ch.controlWardsPlaced
    turret_plates := ch.turretPlatesTaken
    turrets := p.turretKills
    dragons := p.dragonKills
    barons := p.baronKills
    cs_at_10 := if ch.laneMinionsFirst10Minutes ≠ 0 then ch.laneMinionsFirst10Minutes
                else ch.jungleCsBefore10Minutes
    cs_advantage := ch.maxCsAdvantageOnLaneOpponent
    gold_advantage := if 0 < ch.earlyLaningPhaseGoldExpAdvantage then 1 else 0
    kill_participation := ch.killParticipation
    solo_kills := ch.soloKills
    multikills := (dKills : ℚ) + (tKills : ℚ) * 2 + (qKills : ℚ) * 3 + (pKills : ℚ) * 4
    cc_time := cc
    healing := heal
    shielding := shield
    time_dead_pct := (dead : ℚ) / mi.gameDuration
    longest_living := living
    skillshots_hit := ch.skillshotsHit
    skillshots_dodged := ch.skillshotsDodged
    first_blood := if p.firstBloodKill then 1 else 0
    first_tower := if p.firstTowerKill then 1 else 0
    game_duration := duration_mins }

/-- `features.get(col, 0)`: look a feature up by its column name, defaulting to
0 for a name the extractor did not emit. -/
def featureGet (f : FeatureVec) (col : String) : ℚ :=
  if col = "kills" then f.kills
  else if col = "deaths" then f.deaths
  else if col = "assists" then f.assists
  else if col = "kda" then f.kda
  else if col = "cs_per_min" then f.cs_per_min
  else if col = "jungle_cs" then f.jungle_cs
  else if col = "gold_per_min" then f.gold_per_min
  else if col = "damage_per_min" then f.damage_per_min
  else if col = "damage_taken_per_min" then f.damage_taken_per_min
  else if col = "damage_mitigated" then f.damage_mitigated
  else if col = "damage_share" then f.damage_share
  else if col = "vision_per_min" then f.vision_per_min
  else if col = "wards_placed" then f.wards_placed
  else if col = "wards_killed" then f.wards_killed
  else if col = "control_wards" then f.control_wards
  else if col = "turret_plates" then f.turret_plates
  else if col = "turrets" then f.turrets
  else if col = "dragons" then f.dragons
  else if col = "barons" then f.barons
  else if col = "cs_at_10" then f.cs_at_10
  else if col = "cs_advantage" then f.cs_advantage
  else if col = "gold_advantage" then f.gold_advantage
  else if col = "kill_participation" then f.kill_participation
  else if col = "solo_kills" then f.solo_kills
  else if col = "multikills" then f.multikills
  else if col = "cc_time" then f.cc_time
  else if col = "healing" then f.healing
  else if col = "shielding" then f.shielding
  else if col = "time_dead_pct" then f.time_dead_pct
  else if col = "longest_living" then f.longest_living
  else if col = "skillshots_hit" then f.skillshots_hit
  else if col = "skillshots_dodged" then f.skillshots_dodged
  else if col = "first_blood" then f.first_blood
  else if col = "first_tower" then f.first_tower
  else if col = "game_duration" then f.game_duration
  else 0

/-- A loaded role model: `model.predict` on the positional feature vector,
opaque to the core.  `Except.error` models an exception raised during
inference (caught by the predictor's `try`). -/
abbrev Model : Type := List ℚ → Except Unit ℚ

/-- `PerformancePredictor._score_to_grade` (performance_predictor.py 234-247). -/
def score_to_grade (score : ℚ) : String :=
  if 90 ≤ score then "S"
  else if 80 ≤ score then "A"
  else if 70 ≤ score then "B"
  else if 60 ≤ score then "C"
  else if 50 ≤ score then "D"
  else "F"

/-- `PerformancePredictor._score_to_percentile` (performance_predictor.py
249-257): `np.clip(50 + (score - 50) * 1.5, 0, 100)`. -/
def score_to_percentile (score : ℚ) : ℚ :=
  clipQ (50 + (score - 50) * (3/2)) 0 100

/-- The result dictionary returned by a successful prediction. -/
structure PredictionResult where
  performance_score : ℚ
  role : String
  grade : String
  percentile : ℚ
  champion : String
  win : Bool
deriving DecidableEq

/-- The `try` block of `predict_performance` (performance_predictor.py
lines 208-232): inference, clip, grade, percentile, result assembly.  Any
exception inside — inference failure, or a `KeyError` on
`participant['championName']` / `participant['win']` — is caught and turned
into `None`. -/
def tryPredictBody (model : Model) (role : String) (v : List ℚ) (p : Participant) :
    Option PredictionResult :=
  match model v with
  | .error _ => none
  | .ok raw =>
    match p.championName, p.win with
    | some champ, some w =>
      some { performance_score := round2 (clipQ raw 0 100)
             role := role
             grade := score_to_grade (clipQ raw 0 100)
             percentile := round1 (score_to_percentile (clipQ raw 0 100))
             champion := champ
             win := w }
    | _, _ => none

/-- `PerformancePredictor.predict_performance(participant, match_info)`
(performance_predictor.py lines 173-232).  `models` is the registry
(`self.models`): `none` = role not in the dictionary.  Returns `.ok none` when
the role is unsupported or the `try` block swallows an exception, `.ok (some r)`
on success, and `.error` exactly when `extract_features` — called outside the
`try` — raises. -/
def predict_performance (models : String → Option Model) (cols : List String)
    (p : Participant) (mi : MatchInfo) : Except Unit (Option PredictionResult) :=
  if p.individualPosition.getD "" = "" then .ok none
  else match models (p.individualPosition.getD "") with
    | none => .ok none
    | some model =>
      match extract_features p mi with
      | .error e => .error e
      | .ok features =>
        .ok (tryPredictBody model (p.individualPosition.getD "")
          (cols.map (featureGet features)) p)

/-- Insert into the Python-dict model of the result map: replace the value if
the key is present, append otherwise. -/
def insertAssoc (l : List (String × PredictionResult)) (k : String)
    (v : PredictionResult) : List (String × PredictionResult) :=
  match l with
  | [] => [(k, v)]
  | (a, b) :: t => if a = k then (a, v) :: t else (a, b) :: insertAssoc t k v

/-- Key lookup in the result map. -/
def lookupAssoc (l : List (String × PredictionResult)) (k : String) :
    Option PredictionResult :=
  match l with
  | [] => none
  | (a, b) :: t => if a = k then some b else lookupAssoc t k

/-- The loop of `predict_batch`: for each participant read
`participant['puuid']` (KeyError propagates), call `predict_performance` (its
uncaught `extract_features` exception propagates), and store the prediction
under the puuid when it is not `None`. -/
def predict_batch_go (models : String → Option Model) (cols : List String)
    (mi : MatchInfo) : List Participant → List (String × PredictionResult) →
    Except Unit (List (String × PredictionResult))
  | [], acc => .ok acc
  | p :: ps, acc =>
    match req p.puuid with
    | .error e => .error e
    | .ok pu =>
      match predict_performance models cols p mi with
      | .error e => .error e
      | .ok none => predict_batch_go models cols mi ps acc
      | .ok (some r) => predict_batch_go models cols mi ps (insertAssoc acc pu r)

/-- `PerformancePredictor.predict_batch(participants, match_info)`
(performance_predictor.py lines 259-279). -/
def predict_batch (models : String → Option Model) (cols : List String)
    (ps : List Participant) (mi : MatchInfo) :
    Except Unit (List (String × PredictionResult)) :=
  predict_batch_go models cols mi ps []

/-! ## Insight pipeline (`ml-lambda2.py`) -/

/-- One feature dictionary produced by the lambda `extract_features`
(ml-lambda2.py lines 106-141): 12 keys per analyzed match, `win` as 0/1. -/
structure LFeat where
  kills : ℚ
  deaths : ℚ
  assists : ℚ
  cs : ℚ
  gold : ℚ
  damage : ℚ
  vision : ℚ
  kda : ℚ
  win : ℕ
  cs_per_min : ℚ
  gold_per_min : ℚ
  damage_per_min : ℚ
deriving DecidableEq

/-- Per-match metadata carried alongside the features. -/
structure LMeta where
  matchId : String
  champion : String
  win : Bool
deriving DecidableEq

/-- One named sub-result of the analysis battery.  The fitted library payloads
(sklearn estimator outputs) are external to the repository and carry no claim,
so a successful sub-result is abstracted to `success`; a sub-result whose
dictionary carries an `error` field is `withError msg`. -/
inductive SubResult where
  | success
  | withError (msg : String)
deriving DecidableEq

/-- `run_pca_analysis` (ml-lambda2.py 178-196): no guard, always returns a
result dictionary without an `error` field. -/
def run_pca_analysis (_n : ℕ) : SubResult := .success

/-- `run_clustering_analysis` (ml-lambda2.py 198-213): no guard. -/
def run_clustering_analysis (_n : ℕ) : SubResult := .success

/-- `run_linear_regression_analysis` (ml-lambda2.py 215-235): no guard. -/
def run_linear_regression_analysis (_n : ℕ) : SubResult := .success

/-- `run_logistic_regression_analysis` (ml-lambda2.py 237-263): returns
`{'error': 'Insufficient class diversity'}` when `len(np.unique(y)) < 2`. -/
def run_logistic_regression_analysis (y : List ℕ) : SubResult :=
  if y.dedup.length < 2 then .withError "Insufficient class diversity"
  else .success

/-- `run_knn_analysis` (ml-lambda2.py 265-285): returns
`{'error': 'Insufficient data'}` when `len(X) < 5`. -/
def run_knn_analysis (n : ℕ) (_y : List ℕ) : SubResult :=
  if n < 5 then .withError "Insufficient data"
  else .success

/-- `run_decision_tree_analysis` (ml-lambda2.py 287-305): returns
`{'error': 'Insufficient class diversity'}` when `len(np.unique(y)) < 2`. -/
def run_decision_tree_analysis (y : List ℕ) : SubResult :=
  if y.dedup.length < 2 then .withError "Insufficient class diversity"
  else .success

/-- `compute_statistics` (ml-lambda2.py 307-352): pure descriptive
aggregation, never carries an `error` field. -/
def compute_statistics (_features : List LFeat) (_metadata : List LMeta) : SubResult :=
  .success

/-- `run_comprehensive_ml_analysis(features, metadata)` (ml-lambda2.py
143-176): the seven named sub-results, assembled in source order into the
`results` dictionary. -/
def run_comprehensive_ml_analysis (features : List LFeat) (metadata : List LMeta) :
    List (String × SubResult) :=
  let y := features.map (·.win)
  [("pca", run_pca_analysis features.length),
   ("clustering", run_clustering_analysis features.length),
   ("linear_regression", run_linear_regression_analysis features.length),
   ("logistic_regression", run_logistic_regression_analysis y),
   ("knn", run_knn_analysis features.length y),
   ("decision_tree", run_decision_tree_analysis y),
   ("statistics", compute_statistics features metadata)]

/-- The recompute path of `lambda_handler` (ml-lambda2.py lines 52-62): after
feature extraction, fewer than 3 feature samples is rejected with the
insufficient-data error (HTTP 400, no insight results); otherwise the full
battery runs. -/
def lambda_process (features : List LFeat) (metadata : List LMeta) :
    Except String (List (String × SubResult)) :=
  if features.length < 3 then .error "Need at least 3 matches for analysis"
  else .ok (run_comprehensive_ml_analysis features metadata)

/-! ## Basic clip and component bounds -/

theorem le_clipQ (x lo hi : ℚ) : lo ≤ clipQ x lo hi := le_max_left _ _

theorem clipQ_le {x lo hi : ℚ} (h : lo ≤ hi) : clipQ x lo hi ≤ hi :=
  max_le h (min_le_right _ _)

theorem clipQ_of_le {x lo hi : ℚ} (h1 : lo ≤ x) (h2 : x ≤ hi) : clipQ x lo hi = x := by
  unfold clipQ
  rw [min_eq_left h2, max_eq_right h1]

theorem stat_component_nonneg (rs : RoleStats) (s : TSample) :
    0 ≤ stat_component rs s := le_clipQ _ _ _

theorem stat_component_le (rs : RoleStats) (s : TSample) :
    stat_component rs s ≤ 50 := clipQ_le (by norm_num)

theorem impact_component_nonneg (s : TSample) : 0 ≤ impact_component s := by
  unfold impact_component
  have t1 : (0:ℚ) ≤ min ((s.turrets.getD 0 : ℚ) * 2) 5 :=
    le_min (by positivity) (by norm_num)
  have t2 : (0:ℚ) ≤ min ((s.dragons.getD 0 : ℚ) * 2) 5 :=
    le_min (by positivity) (by norm_num)
  have t3 : (0:ℚ) ≤ min ((s.barons.getD 0 : ℚ) * 5) 5 :=
    le_min (by positivity) (by norm_num)
  have t4 : (0:ℚ) ≤ (if 2 ≤ s.solo_kills.getD 0 then (3:ℚ) else 0) := by
    split_ifs <;> norm_num
  have t5 : (0:ℚ) ≤ (if 1 ≤ s.multikills.getD 0 then (2:ℚ) else 0) := by
    split_ifs <;> norm_num
  exact le_min (by linarith) (by norm_num)

theorem impact_component_le (s : TSample) : impact_component s ≤ 20 :=
  min_le_right _ _

theorem win_component_nonneg (s : TSample) : 5 ≤ win_component s := by
  unfold win_component; split_ifs <;> norm_num

theorem win_component_le (s : TSample) : win_component s ≤ 25 := by
  unfold win_component; split_ifs <;> norm_num

/-- The final `np.clip(performance_score, 0, 100)` of
`calculate_performance_score` is the identity: the component sum already
lies inside [0, 100]. -/
theorem calc_score_eq (rs : RoleStats) (s : TSample) :
    calculate_performance_score rs s =
      win_component s + stat_component rs s + impact_component s := by
  unfold calculate_performance_score
  have h1 := win_component_nonneg s
  have h2 := win_component_le s
  have h3 := stat_component_nonneg rs s
  have h4 := stat_component_le rs s
  have h5 := impact_component_nonneg s
  have h6 := impact_component_le s
  exact clipQ_of_le (by linarith) (by linarith)

/-! ## Claims C9, C7, C2 — Score Calculator -/

/-- C9: for every training sample the ground-truth performance score lies in
[5, 95] — outcome contributes 5..25, relative statistics 0..50, impact 0..20 —
and the final clip of the sum to [0, 100] is never active. -/
theorem claim_C9_score_bounds (rs : RoleStats) (s : TSample) :
    5 ≤ calculate_performance_score rs s ∧ calculate_performance_score rs s ≤ 95 ∧
    calculate_performance_score rs s =
      win_component s + stat_component rs s + impact_component s := by
  have h1 := win_component_nonneg s
  have h2 := win_component_le s
  have h3 := stat_component_nonneg rs s
  have h4 := stat_component_le rs s
  have h5 := impact_component_nonneg s
  have h6 := impact_component_le s
  have he := calc_score_eq rs s
  refine ⟨?_, ?_, he⟩ <;> rw [he] <;> linarith

/-- C7: two training samples identical in every statistic and differing only
in the win flag receive strictly ordered ground-truth scores: the winning
sample scores strictly higher, and the final clip never equalizes the pair. -/
theorem claim_C7_win_strictly_higher (rs : RoleStats) (s : TSample) :
    calculate_performance_score rs { s with win := false } <
      calculate_performance_score rs { s with win := true } := by
  have e1 := calc_score_eq rs { s with win := true }
  have e2 := calc_score_eq rs { s with win := false }
  have hs : stat_component rs { s with win := true } =
      stat_component rs { s with win := false } := rfl
  have hi : impact_component { s with win := true } =
      impact_component { s with win := false } := rfl
  have w1 : win_component { s with win := true } = 25 := rfl
  have w2 : win_component { s with win := false } = 5 := rfl
  rw [e1, e2, hs, hi, w1, w2]
  linarith

/-- C2 counterexample: for a sample with none of the seven weighted statistics
available, the relative-statistics component is not the midpoint 25 — the
default 25 is rescaled by `* (50/10)` and then clipped, giving 50. -/
theorem claim_C2_counterexample :
    statScores {} { win := true } = [] ∧ stat_component {} { win := true } ≠ 25 := by
  refine ⟨rfl, ?_⟩
  have h : stat_component {} { win := true } = 50 := by
    unfold stat_component
    dsimp only
    rw [show statScores {} { win := true } = ([] : List ℚ) from rfl, if_pos rfl]
    norm_num [clipQ]
  rw [h]
  norm_num

/-- C2 (amended): for any training sample for which none of the seven weighted
statistics is available, the relative-statistics component of the ground-truth
score equals 50 — the maximum, not the midpoint 25 — because the fallback
value 25 is subsequently multiplied by 50/10 and clipped to [0, 50]. -/
theorem claim_C2_empty_stats_component (rs : RoleStats) (s : TSample)
    (h : statScores rs s = []) : stat_component rs s = 50 := by
  unfold stat_component
  rw [h]
  norm_num [clipQ]

/-- C2 witness: the amended claim instantiated at a concrete sample that
carries none of the weighted statistics. -/
theorem claim_C2_witness : stat_component {} { win := false } = 50 :=
  claim_C2_empty_stats_component {} { win := false } rfl

/-! ## Claims C3, C10 — Recompute Decision Engine -/

/-- C3: the recompute decision follows the three-branch policy in order —
absent cache recomputes with reason "No existing results"; a new-id set equal
(as a set) to the cached ids skips with reason "No new matches"; otherwise it
recomputes iff at least 3 new ids are not in the cached set — and the three
concrete spec examples hold. -/
theorem claim_C3_recompute_policy :
    (∀ ids, should_recompute_ml ids none = (true, "No existing results")) ∧
    (∀ new_ids old_ids : List String,
      ((∀ a ∈ new_ids, a ∈ old_ids) ∧ (∀ a ∈ old_ids, a ∈ new_ids)) →
      should_recompute_ml new_ids (some old_ids) = (false, "No new matches")) ∧
    (∀ new_ids old_ids : List String,
      ¬((∀ a ∈ new_ids, a ∈ old_ids) ∧ (∀ a ∈ old_ids, a ∈ new_ids)) →
      ((should_recompute_ml new_ids (some old_ids)).1 = true ↔
        3 ≤ (new_ids.dedup.filter (fun a => decide (a ∉ old_ids))).length)) ∧
    should_recompute_ml ["A", "B", "C"] (some ["A", "B", "C"]) =
      (false, "No new matches") ∧
    (should_recompute_ml ["A", "B", "C", "D", "E", "F"] (some ["A", "B", "C"])).1
      = true ∧
    (should_recompute_ml ["A", "B", "D"] (some ["A", "B", "C"])).1 = false := by
  refine ⟨fun ids => rfl, ?_, ?_, by decide, by decide, by decide⟩
  · intro new_ids old_ids h
    simp only [should_recompute_ml]
    rw [if_pos h]
  · intro new_ids old_ids h
    simp only [should_recompute_ml]
    rw [if_neg h]
    split_ifs with h3
    · simpa using h3
    · simpa using h3

/-- C3 witness: the set-equality branch applied at a concrete input. -/
theorem claim_C3_witness :
    should_recompute_ml ["X", "Y"] (some ["Y", "X"]) = (false, "No new matches") :=
  claim_C3_recompute_policy.2.1 ["X", "Y"] ["Y", "X"] (by decide)

/-- C10: when the new match-id set is a strict subset of the cached processed
ids (`x` a cached id that is no longer present), the decision is to skip and
serve the cached results: removal of matches alone never triggers
recomputation. -/
theorem claim_C10_subset_skips (new_ids old_ids : List String)
    (hsub : ∀ a ∈ new_ids, a ∈ old_ids)
    (x : String) (hx : x ∈ old_ids) (hnx : x ∉ new_ids) :
    should_recompute_ml new_ids (some old_ids) =
      (false, "Only 0 new matches - using cache") := by
  simp only [should_recompute_ml]
  rw [if_neg (fun h => hnx (h.2 x hx))]
  have hfil : new_ids.dedup.filter (fun a => decide (a ∉ old_ids)) = [] := by
    rw [List.filter_eq_nil_iff]
    intro a ha
    simp only [decide_eq_true_eq, Decidable.not_not]
    exact hsub a (List.mem_dedup.mp ha)
  rw [hfil]
  rfl

/-- C10 witness: cached {A, B}, new {A} — skip with the zero-count reason. -/
theorem claim_C10_witness :
    should_recompute_ml ["A"] (some ["A", "B"]) =
      (false, "Only 0 new matches - using cache") :=
  claim_C10_subset_skips ["A"] ["A", "B"] (by decide) "B" (by decide) (by decide)

/-! ## Claim C1 — the kda feature across the three extraction paths -/

/-- C1: at kills = 2, deaths = 2, assists = 4 the training-time collection
path computes kda = 2 + 4/2 = 4 (its source line lacks parentheses around the
sum, dividing only `assists`), while the inference-time and insight-pipeline
paths compute (2+4)/2 = 3: the three paths do not agree. -/
theorem claim_C1_kda_divergence :
    dataCollection_kda 2 2 4 = 4 ∧ predictor_kda 2 2 4 = 3 ∧
    lambda2_kda 2 2 4 = 3 ∧ dataCollection_kda 2 2 4 ≠ predictor_kda 2 2 4 := by
  norm_num [dataCollection_kda, predictor_kda, lambda2_kda]

/-! ## Claim C8 — single-outcome win-probability analysis -/

theorem dedup_length_lt_two {y : List ℕ} (h : ∀ a ∈ y, ∀ b ∈ y, a = b) :
    y.dedup.length < 2 := by
  rcases hd : y.dedup with _ | ⟨a, _ | ⟨b, t⟩⟩
  · simp
  · simp
  · exfalso
    have hnd := y.nodup_dedup
    rw [hd] at hnd
    have ha : a ∈ y := List.mem_dedup.mp (by rw [hd]; simp)
    have hb : b ∈ y := List.mem_dedup.mp (by rw [hd]; simp)
    have hne : a ≠ b := by
      intro e
      rw [e] at hnd
      simp at hnd
    exact hne (h a ha b hb)

/-- C8: on a sample set where every win flag is identical, the win-probability
sub-analysis returns a result carrying the named insufficient-class-diversity
error field — it does not raise. -/
theorem claim_C8_single_class (features : List LFeat)
    (h : ∀ f1 ∈ features, ∀ f2 ∈ features, LFeat.win f1 = LFeat.win f2) :
    run_logistic_regression_analysis (features.map (·.win)) =
      SubResult.withError "Insufficient class diversity" := by
  unfold run_logistic_regression_analysis
  rw [if_pos]
  apply dedup_length_lt_two
  intro a ha b hb
  obtain ⟨f1, hf1, rfl⟩ := List.mem_map.mp ha
  obtain ⟨f2, hf2, rfl⟩ := List.mem_map.mp hb
  exact h f1 hf1 f2 hf2

/-- A fixed feature sample used to instantiate the pipeline claims. -/
def lfWit : LFeat :=
  { kills := 2, deaths := 2, assists := 4, cs := 100, gold := 10000,
    damage := 15000, vision := 20, kda := 3, win := 1, cs_per_min := 10/3,
    gold_per_min := 1000/3, damage_per_min := 500 }

/-- C8 witness: three all-win samples report the insufficient-diversity error. -/
theorem claim_C8_witness :
    run_logistic_regression_analysis ([lfWit, lfWit, lfWit].map (·.win)) =
      SubResult.withError "Insufficient class diversity" :=
  claim_C8_single_class [lfWit, lfWit, lfWit] (by
    intro f1 h1 f2 h2
    simp only [List.mem_cons, List.not_mem_nil, or_false] at h1 h2
    rcases h1 with rfl | rfl | rfl <;> rcases h2 with rfl | rfl | rfl <;> rfl)

/-! ## Claim C6 — insight pipeline sample gate -/

/-- C6: running the insight pipeline on fewer than 3 extracted feature samples
fails with the insufficient-data error and produces no insight results; on
exactly 3 samples it succeeds and produces the seven named sub-results, the
nearest-neighbor check carrying its internal error field (3 < 5). -/
theorem claim_C6_pipeline_gate (features : List LFeat) (metadata : List LMeta) :
    (features.length < 3 →
      lambda_process features metadata =
        .error "Need at least 3 matches for analysis") ∧
    (features.length = 3 →
      lambda_process features metadata =
        .ok (run_comprehensive_ml_analysis features metadata) ∧
      (run_comprehensive_ml_analysis features metadata).map Prod.fst =
        ["pca", "clustering", "linear_regression", "logistic_regression",
         "knn", "decision_tree", "statistics"] ∧
      run_knn_analysis features.length (features.map (·.win)) =
        SubResult.withError "Insufficient data") := by
  constructor
  · intro h
    unfold lambda_process
    rw [if_pos h]
  · intro h
    refine ⟨?_, by simp [run_comprehensive_ml_analysis], ?_⟩
    · unfold lambda_process
      rw [if_neg (by omega)]
    · unfold run_knn_analysis
      rw [if_pos (by omega)]

/-- C6 witness: the exactly-3-samples branch instantiated concretely. -/
theorem claim_C6_witness :
    lambda_process [lfWit, lfWit, lfWit] [] =
      .ok (run_comprehensive_ml_analysis [lfWit, lfWit, lfWit] []) ∧
    (run_comprehensive_ml_analysis [lfWit, lfWit, lfWit] []).map Prod.fst =
      ["pca", "clustering", "linear_regression", "logistic_regression",
       "knn", "decision_tree", "statistics"] ∧
    run_knn_analysis ([lfWit, lfWit, lfWit] : List LFeat).length
        ([lfWit, lfWit, lfWit].map (·.win)) =
      SubResult.withError "Insufficient data" :=
  (claim_C6_pipeline_gate [lfWit, lfWit, lfWit] []).2 rfl

/-! ## Rounding bounds -/

theorem roundHalfEven_nonneg {x : ℚ} (h : 0 ≤ x) : 0 ≤ roundHalfEven x := by
  have hf : 0 ≤ Int.floor x := Int.floor_nonneg.mpr h
  unfold roundHalfEven
  split_ifs <;> omega

theorem roundHalfEven_le {x : ℚ} {m : ℤ} (h : x ≤ m) : roundHalfEven x ≤ m := by
  have hf : Int.floor x ≤ m := by
    have := Int.floor_le_floor h
    rwa [Int.floor_intCast] at this
  unfold roundHalfEven
  split_ifs with h1 h2 h3
  · exact hf
  · have hr : (1:ℚ)/2 ≤ x - Int.floor x := le_of_not_lt h1
    have hx : (Int.floor x : ℚ) < (m : ℚ) := by
      have : (Int.floor x : ℚ) < x := by linarith
      exact lt_of_lt_of_le this h
    have : Int.floor x < m := by exact_mod_cast hx
    omega
  · exact hf
  · have hr : (1:ℚ)/2 ≤ x - Int.floor x := le_of_not_lt h1
    have hx : (Int.floor x : ℚ) < (m : ℚ) := by
      have : (Int.floor x : ℚ) < x := by linarith
      exact lt_of_lt_of_le this h
    have : Int.floor x < m := by exact_mod_cast hx
    omega

theorem round2_nonneg {s : ℚ} (h : 0 ≤ s) : 0 ≤ round2 s := by
  unfold round2
  have := roundHalfEven_nonneg (show (0:ℚ) ≤ s * 100 by linarith)
  have hc : (0:ℚ) ≤ (roundHalfEven (s * 100) : ℚ) := by exact_mod_cast this
  linarith

theorem round2_le_100 {s : ℚ} (h : s ≤ 100) : round2 s ≤ 100 := by
  unfold round2
  have : roundHalfEven (s * 100) ≤ (10000 : ℤ) :=
    roundHalfEven_le (by push_cast; linarith)
  have hc : (roundHalfEven (s * 100) : ℚ) ≤ 10000 := by exact_mod_cast this
  linarith

/-! ## Claim C5 — prediction clipping and grade thresholds -/

/-- C5: every successful prediction's performance score lies in [0, 100] (the
model output is clipped to that interval, then rounded to two decimals); the
grade is derived from the clipped score by the exact thresholds ≥90 S, ≥80 A,
≥70 B, ≥60 C, ≥50 D, else F; and at the boundaries a score of exactly 90.0
grades S while 89.99 grades A. -/
theorem claim_C5_clip_and_grades :
    (∀ models cols p mi r, predict_performance models cols p mi = .ok (some r) →
      0 ≤ r.performance_score ∧ r.performance_score ≤ 100 ∧
      ∃ s, 0 ≤ s ∧ s ≤ 100 ∧ r.performance_score = round2 s ∧
        r.grade = score_to_grade s) ∧
    (∀ s : ℚ,
      (90 ≤ s → score_to_grade s = "S") ∧
      (80 ≤ s → s < 90 → score_to_grade s = "A") ∧
      (70 ≤ s → s < 80 → score_to_grade s = "B") ∧
      (60 ≤ s → s < 70 → score_to_grade s = "C") ∧
      (50 ≤ s → s < 60 → score_to_grade s = "D") ∧
      (s < 50 → score_to_grade s = "F")) ∧
    score_to_grade 90 = "S" ∧ score_to_grade (8999/100) = "A" := by
  refine ⟨?_, ?_, by norm_num [score_to_grade], by norm_num [score_to_grade]⟩
  · intro models cols p mi r h
    unfold predict_performance at h
    split_ifs at h with h1
    · cases h
    · rcases hm : models (p.individualPosition.getD "") with _ | model <;> rw [hm] at h
      · cases h
      · rcases he : extract_features p mi with e | features <;> rw [he] at h
        · cases h
        · simp only [Except.ok.injEq] at h
          unfold tryPredictBody at h
          rcases hmv : model (cols.map (featureGet features)) with e | raw <;>
            rw [hmv] at h
          · cases h
          · rcases hc : p.championName with _ | champ <;> rw [hc] at h
            · cases h
            · rcases hw : p.win with _ | w <;> rw [hw] at h
              · cases h
              · simp only [Option.some.injEq] at h
                subst h
                refine ⟨?_, ?_, clipQ raw 0 100, le_clipQ _ _ _,
                  clipQ_le (by norm_num), rfl, rfl⟩
                · exact round2_nonneg (le_clipQ _ _ _)
                · exact round2_le_100 (clipQ_le (by norm_num))
  · intro s
    refine ⟨fun h => ?_, fun h h2 => ?_, fun h h2 => ?_, fun h h2 => ?_,
      fun h h2 => ?_, fun h => ?_⟩ <;>
      unfold score_to_grade <;> split_ifs <;> first | rfl | linarith

/-! ## Monadic reduction helpers for `Except` -/

theorem except_bind_ok {ε α β : Type} (a : α) (f : α → Except ε β) :
    (Except.ok a >>= f : Except ε β) = f a := rfl

theorem except_bind_error {ε α β : Type} (e : ε) (f : α → Except ε β) :
    (Except.error e >>= f : Except ε β) = Except.error e := rfl

theorem except_pure_eq {ε α : Type} (a : α) : (pure a : Except ε α) = Except.ok a := rfl

/-! ## Concrete predictor instances -/

/-- A registry with a single loaded model, for the TOP role, whose regressor
returns the constant score 50. -/
def modelsWit : String → Option Model :=
  fun role => if role = "TOP" then some (fun _ => .ok 50) else none

/-- A fully populated participant record. -/
def pWit : Participant :=
  { puuid := some "p1", individualPosition := some "TOP",
    championName := some "Ahri", win := some true,
    kills := some 2, deaths := some 2, assists := some 4,
    totalMinionsKilled := some 100, goldEarned := some 10000,
    totalDamageDealtToChampions := some 15000, totalDamageTaken := some 12000,
    damageSelfMitigated := some 8000, visionScore := some 20,
    wardsPlaced := some 10, wardsKilled := some 3,
    doubleKills := some 1, tripleKills := some 0, quadraKills := some 0,
    pentaKills := some 0, timeCCingOthers := some 15, totalHeal := some 2000,
    totalDamageShieldedOnTeammates := some 0, totalTimeSpentDead := some 60,
    longestTimeSpentLiving := some 600 }

/-- A participant whose required `kills` field is missing from the source
record: feature extraction raises a `KeyError` on it. -/
def pBad : Participant := { pWit with puuid := some "p2", kills := none }

def miWit : MatchInfo := ⟨1800⟩

/-- The prediction `modelsWit` produces for `pWit`. -/
def rWit : PredictionResult :=
  { performance_score := 50, role := "TOP", grade := "D", percentile := 50,
    champion := "Ahri", win := true }

/-- C5 witness: the clipping-and-grade theorem applied to the concrete
prediction that `modelsWit` makes for `pWit`. -/
theorem claim_C5_witness :
    0 ≤ rWit.performance_score ∧ rWit.performance_score ≤ 100 ∧
    ∃ s, 0 ≤ s ∧ s ≤ 100 ∧ rWit.performance_score = round2 s ∧
      rWit.grade = score_to_grade s :=
  claim_C5_clip_and_grades.1 modelsWit [] pWit miWit rWit (by
    simp only [predict_performance, modelsWit, pWit, miWit, extract_features, req,
      except_bind_ok, except_pure_eq, tryPredictBody]
    norm_num [rWit, clipQ, min_def, max_def, score_to_grade, score_to_percentile,
      round2, round1, roundHalfEven]
    intro h
    exact absurd h (by decide))

/-! ## Claim C4 — batch prediction error scoping -/

theorem lookupAssoc_insert_isSome (l : List (String × PredictionResult))
    (k : String) (v : PredictionResult) (k2 : String) :
    (lookupAssoc (insertAssoc l k v) k2).isSome = true ↔
      k2 = k ∨ (lookupAssoc l k2).isSome = true := by
  induction l with
  | nil =>
    by_cases h : k = k2
    · subst h
      simp [insertAssoc, lookupAssoc]
    · simp [insertAssoc, lookupAssoc, h, Ne.symm h]
  | cons hd tl ih =>
    obtain ⟨a, b⟩ := hd
    by_cases hak : a = k
    · subst hak
      by_cases h2 : a = k2
      · subst h2
        simp [insertAssoc, lookupAssoc]
      · simp [insertAssoc, lookupAssoc, h2, Ne.symm h2]
    · by_cases h2 : a = k2
      · subst h2
        simp [insertAssoc, lookupAssoc, hak]
      · simp [insertAssoc, lookupAssoc, hak, h2, ih]

theorem predict_performance_ok_of_extract (models : String → Option Model)
    (cols : List String) (p : Participant) (mi : MatchInfo)
    (h : ∃ f, extract_features p mi = .ok f) :
    ∃ o, predict_performance models cols p mi = .ok o := by
  obtain ⟨f, hf⟩ := h
  unfold predict_performance
  split_ifs with h1
  · exact ⟨none, rfl⟩
  · cases hm : models (p.individualPosition.getD "") with
    | none => exact ⟨none, rfl⟩
    | some model =>
      exact ⟨tryPredictBody model (p.individualPosition.getD "")
        (cols.map (featureGet f)) p, by rw [hf]⟩

theorem predict_batch_go_spec (models : String → Option Model)
    (cols : List String) (mi : MatchInfo) :
    ∀ ps : List Participant,
      (∀ p ∈ ps, p.puuid ≠ none ∧ ∃ f, extract_features p mi = .ok f) →
      ∀ acc, ∃ l, predict_batch_go models cols mi ps acc = .ok l ∧
        ∀ k, (lookupAssoc l k).isSome = true ↔
          ((lookupAssoc acc k).isSome = true ∨
            ∃ p ∈ ps, p.puuid = some k ∧
              ∃ r, predict_performance models cols p mi = .ok (some r)) := by
  intro ps
  induction ps with
  | nil =>
    intro _ acc
    exact ⟨acc, rfl, by simp⟩
  | cons p ps ih =>
    intro h acc
    obtain ⟨hpu, hex⟩ := h p (List.mem_cons_self p ps)
    obtain ⟨pu, hpu2⟩ := Option.ne_none_iff_exists'.mp hpu
    obtain ⟨o, ho⟩ := predict_performance_ok_of_extract models cols p mi hex
    have hrest := fun q hq => h q (List.mem_cons_of_mem p hq)
    cases o with
    | none =>
      obtain ⟨l, hl, hspec⟩ := ih hrest acc
      refine ⟨l, by simp [predict_batch_go, hpu2, req, ho, hl], fun k => ?_⟩
      rw [hspec k]
      constructor
      · rintro (h1 | ⟨q, hq, hq2, hq3⟩)
        · exact .inl h1
        · exact .inr ⟨q, List.mem_cons_of_mem p hq, hq2, hq3⟩
      · rintro (h1 | ⟨q, hq, hq2, hq3⟩)
        · exact .inl h1
        · rcases List.mem_cons.mp hq with rfl | hq
          · obtain ⟨r, hr⟩ := hq3
            rw [ho] at hr
            cases hr
          · exact .inr ⟨q, hq, hq2, hq3⟩
    | some r =>
      obtain ⟨l, hl, hspec⟩ := ih hrest (insertAssoc acc pu r)
      refine ⟨l, by simp [predict_batch_go, hpu2, req, ho, hl], fun k => ?_⟩
      rw [hspec k, lookupAssoc_insert_isSome]
      constructor
      · rintro ((rfl | h1) | ⟨q, hq, hq2, hq3⟩)
        · exact .inr ⟨p, List.mem_cons_self p ps, hpu2, r, ho⟩
        · exact .inl h1
        · exact .inr ⟨q, List.mem_cons_of_mem p hq, hq2, hq3⟩
      · rintro (h1 | ⟨q, hq, hq2, hq3⟩)
        · exact .inl (.inr h1)
        · rcases List.mem_cons.mp hq with rfl | hq
          · rw [hpu2] at hq2
            injection hq2 with he
            exact .inl (.inl he.symm)
          · exact .inr ⟨q, hq, hq2, hq3⟩

/-- C4 counterexample: in a batch holding `pWit` (whose individual prediction
succeeds) and `pBad` (whose required `kills` field is missing, a feature
error), the whole batch raises — it does not return a map that merely omits
`pBad` — because `extract_features` is invoked outside the `try` block of
`predict_performance`. -/
theorem claim_C4_counterexample :
    predict_batch modelsWit [] [pWit, pBad] miWit = .error () ∧
    predict_performance modelsWit [] pWit miWit = .ok (some rWit) := by
  constructor
  · simp only [predict_batch, predict_batch_go, predict_performance, modelsWit,
      pWit, pBad, miWit, extract_features, req, except_bind_ok, except_bind_error,
      except_pure_eq, tryPredictBody, Option.getD_some,
      (show ("TOP" = "") = False by simp), (show ("TOP" = "TOP") = True by simp),
      if_true, if_false, List.map_nil, insertAssoc]
  · simp only [predict_performance, modelsWit, pWit, miWit, extract_features, req,
      except_bind_ok, except_pure_eq, tryPredictBody]
    norm_num [rWit, clipQ, min_def, max_def, score_to_grade, score_to_percentile,
      round2, round1, roundHalfEven]
    intro h
    exact absurd h (by decide)

/-- C4 (amended): batch prediction returns a map keyed by puuid containing
exactly the participants whose individual prediction succeeded, swallowing
per-participant failures, provided every participant has a puuid and feature
extraction succeeds for it; a failure due to an unsupported or unknown role or
an inference error is swallowed by omission, but a feature-extraction error
(missing required source field) propagates and aborts the whole batch. -/
theorem claim_C4_batch_map (models : String → Option Model) (cols : List String)
    (mi : MatchInfo) (ps : List Participant)
    (h : ∀ p ∈ ps, p.puuid ≠ none ∧ ∃ f, extract_features p mi = .ok f) :
    ∃ l, predict_batch models cols ps mi = .ok l ∧
      ∀ k, (lookupAssoc l k).isSome = true ↔
        ∃ p ∈ ps, p.puuid = some k ∧
          ∃ r, predict_performance models cols p mi = .ok (some r) := by
  obtain ⟨l, hl, hspec⟩ := predict_batch_go_spec models cols mi ps h []
  refine ⟨l, hl, fun k => ?_⟩
  rw [hspec k]
  simp [lookupAssoc]

/-- C4 witness: the amended theorem applied to the one-participant batch
`[pWit]`. -/
theorem claim_C4_witness :
    ∃ l, predict_batch modelsWit [] [pWit] miWit = .ok l ∧
      ∀ k, (lookupAssoc l k).isSome = true ↔
        ∃ p ∈ [pWit], p.puuid = some k ∧
          ∃ r, predict_performance modelsWit [] p miWit = .ok (some r) :=
  claim_C4_batch_map modelsWit [] miWit [pWit] (by
    intro p hp
    rw [List.mem_singleton] at hp
    subst hp
    exact ⟨by simp [pWit], ⟨_, rfl⟩⟩)
